import Mathlib

/-!
Verification of the bundle allocation core of the `jem` order-management
application (`src/core/utils.py`, `src/core/views.py`,
`src/core/admin_views.py`).

The ILP solver call (`PuLP` / CBC) is modelled relationally: the solver's
returned point is an explicit argument `q : Nat → Nat` (quantity per item
id), and `solve_smart_bundle` returns a solution exactly when `q` satisfies
every constraint the Python code places on the integer program (variable
bounds, exact-count, inclusion, margin, favorite-boost constraints), after
the same early-exit checks.  Any actual CBC run corresponds to some such
`q` (CBC only reports `Optimal` for points satisfying all constraints), so
a property proved for every feasible `q` holds for every solver result.

Decimal and float arithmetic of the source is modelled exactly over `ℚ`.
Item ids are database primary keys, hence unique; the Python id-keyed
dicts are therefore modelled by the candidate lists themselves.
-/

namespace Jem

/-- An inventory item: id (primary key), unit cost (Decimal, ≥ 0.01 by the
model validator) and current stock (non-negative integer).  The category is
implicit: the solver receives snacks and juices as separate lists. -/
structure Item where
  id : Nat
  cost_price : ℚ
  current_stock : Nat
deriving DecidableEq

/-- Bundle configuration dict passed to the solver: selling price, required
snack count, required juice count, packaging cost. -/
structure BundleConfig where
  selling_price : ℚ
  snack_limit : Nat
  juice_limit : Nat
  packaging_cost : ℚ
deriving DecidableEq

/-- `MIN_PROFIT_MARGIN = Decimal('0.38')` from `utils.py`. -/
def MIN_PROFIT_MARGIN : ℚ := 38 / 100

/-- `STARRED_MIN_QTY = 1` from `utils.py`. -/
def STARRED_MIN_QTY : Nat := 1

/-- `STARRED_MAX_QTY = 4` from `utils.py`. -/
def STARRED_MAX_QTY : Nat := 4

/-- Resolution of the margin argument: `target_margin if target_margin is
not None else MIN_PROFIT_MARGIN`, as in `utils.py` lines 52 and 353. -/
def marginToUse (target_margin : Option ℚ) : ℚ :=
  target_margin.getD MIN_PROFIT_MARGIN

/-- Total available stock of a candidate list:
`sum(item.current_stock for item in items)`. -/
def totalStock (items : List Item) : Nat :=
  (items.map (fun i => i.current_stock)).sum

/-- Dynamic per-item cap (`snack_dynamic_max` / `juice_dynamic_max`):
`max(STARRED_MAX_QTY, ceil(limit / num) + 4)` when there are items and a
positive required count, else `STARRED_MAX_QTY`. -/
def dynamicMax (limit num : Nat) : Nat :=
  if 0 < num ∧ 0 < limit then
    max STARRED_MAX_QTY ((limit + num - 1) / num + 4)
  else STARRED_MAX_QTY

/-- Variable bounds for one candidate item, as computed in the two
variable-creation loops of `solve_smart_bundle` (`utils.py` 104-156).
`varietyCap` is 3 for snacks and 2 for juices; `limit` is the category's
required count (used as the stock stand-in when `ignore_stock`). -/
def itemBounds (favIds : List Nat) (isRandom ignoreStock : Bool)
    (limit varietyCap dynMax : Nat) (item : Item) : Nat × Nat :=
  let stock_limit := if ignoreStock then limit else item.current_stock
  if item.id ∈ favIds then
    (STARRED_MIN_QTY, min stock_limit dynMax)
  else if isRandom then
    (0, min stock_limit varietyCap)
  else
    (0, min stock_limit dynMax)

/-- Sum of assigned quantities over a candidate list
(`lpSum(snack_vars.values())`). -/
def qtySum (items : List Item) (q : Nat → Nat) : Nat :=
  (items.map (fun i => q i.id)).sum

/-- Total cost of an assignment over a candidate list
(`lpSum(cost_price * var)`). -/
def costSum (items : List Item) (q : Nat → Nat) : ℚ :=
  (items.map (fun i => i.cost_price * (q i.id : ℚ))).sum

/-- The constraint system of the integer program built by
`solve_smart_bundle` (`utils.py` 104-258): variable bounds, exact category
counts, the small-pool inclusion constraint, the profit-margin constraint
(first pass only, and only when the selling price is positive), and the
favorite-boost constraint. -/
def Feasible (cfg : BundleConfig) (favIds : List Nat)
    (snacks juices : List Item) (enforce_margin : Bool) (margin : ℚ)
    (isRandom ignoreStock : Bool) (q : Nat → Nat) : Prop :=
  (∀ i ∈ snacks,
      (itemBounds favIds isRandom ignoreStock cfg.snack_limit 3
        (dynamicMax cfg.snack_limit snacks.length) i).1 ≤ q i.id ∧
      q i.id ≤ (itemBounds favIds isRandom ignoreStock cfg.snack_limit 3
        (dynamicMax cfg.snack_limit snacks.length) i).2) ∧
  (∀ i ∈ juices,
      (itemBounds favIds isRandom ignoreStock cfg.juice_limit 2
        (dynamicMax cfg.juice_limit juices.length) i).1 ≤ q i.id ∧
      q i.id ≤ (itemBounds favIds isRandom ignoreStock cfg.juice_limit 2
        (dynamicMax cfg.juice_limit juices.length) i).2) ∧
  (0 < cfg.snack_limit ∧ snacks ≠ [] → qtySum snacks q = cfg.snack_limit) ∧
  (0 < cfg.juice_limit ∧ juices ≠ [] → qtySum juices q = cfg.juice_limit) ∧
  (snacks.length ≤ cfg.snack_limit ∧ 0 < cfg.snack_limit →
      ∀ i ∈ snacks, 1 ≤ q i.id) ∧
  (juices.length ≤ cfg.juice_limit ∧ 0 < cfg.juice_limit →
      ∀ i ∈ juices, 1 ≤ q i.id) ∧
  (enforce_margin = true ∧ 0 < cfg.selling_price →
      costSum snacks q + costSum juices q ≤
        cfg.selling_price * (1 - margin) - cfg.packaging_cost) ∧
  ((snacks.filter (fun i => i.id ∈ favIds)) ≠ [] ∧
      2 * (snacks.filter (fun i => i.id ∈ favIds)).length + 2 ≤ cfg.snack_limit →
      ∀ i ∈ snacks.filter (fun i => i.id ∈ favIds),
        2 ≤ i.current_stock → 2 ≤ q i.id) ∧
  ((juices.filter (fun i => i.id ∈ favIds)) ≠ [] ∧
      2 * (juices.filter (fun i => i.id ∈ favIds)).length + 2 ≤ cfg.juice_limit →
      ∀ i ∈ juices.filter (fun i => i.id ∈ favIds),
        2 ≤ i.current_stock → 2 ≤ q i.id)

instance decFeasible (cfg : BundleConfig) (favIds : List Nat)
    (snacks juices : List Item) (enforce_margin : Bool) (margin : ℚ)
    (isRandom ignoreStock : Bool) (q : Nat → Nat) :
    Decidable (Feasible cfg favIds snacks juices enforce_margin margin
      isRandom ignoreStock q) := by
  unfold Feasible
  infer_instance

/-- One entry of a solver result: item, positive quantity, favorite flag. -/
abbrev Entry := Item × Nat × Bool

/-- Solver result: included snacks, included juices (zero-quantity items
omitted) and the Decimal total cost. -/
structure SolveResult where
  snacks : List Entry
  juices : List Entry
  total_cost : ℚ
deriving DecidableEq

/-- The result-extraction loops of `solve_smart_bundle` (`utils.py`
275-297): keep items with positive quantity, tagging favorites. -/
def extractEntries (favIds : List Nat) (items : List Item) (q : Nat → Nat) :
    List Entry :=
  items.filterMap fun i =>
    if 0 < q i.id then some (i, q i.id, decide (i.id ∈ favIds)) else none

/-- Cost accumulated over extracted entries
(`total_cost += item.cost_price * qty`). -/
def entriesCost (entries : List Entry) : ℚ :=
  (entries.map (fun e => e.1.cost_price * (e.2.1 : ℚ))).sum

/-- Quantity total over extracted entries. -/
def entriesQty (entries : List Entry) : Nat :=
  (entries.map (fun e => e.2.1)).sum

/-- `solve_smart_bundle` (`utils.py` 19-303), with the CBC-returned point
passed in as `q`.  Early exits (empty category pool, insufficient total
stock) return `none` exactly as in the source; otherwise a result is
returned iff `q` satisfies the integer program's constraints. -/
def solve_smart_bundle (cfg : BundleConfig) (customer_favorites : List Item)
    (available_snacks available_juices : List Item)
    (enforce_margin : Bool) (target_margin : Option ℚ)
    (force_non_random ignore_stock : Bool) (q : Nat → Nat) :
    Option SolveResult :=
  let margin_to_use := marginToUse target_margin
  let favorite_ids := customer_favorites.map (fun i => i.id)
  let is_random_selection := favorite_ids.isEmpty && !force_non_random
  if 0 < cfg.snack_limit ∧ available_snacks = [] then none
  else if 0 < cfg.juice_limit ∧ available_juices = [] then none
  else if ignore_stock = false ∧ totalStock available_snacks < cfg.snack_limit
    then none
  else if ignore_stock = false ∧ totalStock available_juices < cfg.juice_limit
    then none
  else if Feasible cfg favorite_ids available_snacks available_juices
      enforce_margin margin_to_use is_random_selection ignore_stock q then
    some
      { snacks := extractEntries favorite_ids available_snacks q
        juices := extractEntries favorite_ids available_juices q
        total_cost := entriesCost (extractEntries favorite_ids available_snacks q)
          + entriesCost (extractEntries favorite_ids available_juices q) }
  else none

/-- Diagnostic string for an empty snack pool
(`utils.py` 430). -/
def noSnacksMsg (need : Nat) : String :=
  "No snacks available in inventory (need " ++ toString need ++ ")"

/-- Diagnostic string for insufficient snack stock
(`utils.py` 432). -/
def snackShortMsg (h n : Nat) : String :=
  "Not enough snack stock: have " ++ toString h ++ ", need " ++ toString n

/-- Diagnostic string for an empty juice pool
(`utils.py` 435). -/
def noJuicesMsg (need : Nat) : String :=
  "No juices available in inventory (need " ++ toString need ++ ")"

/-- Diagnostic string for insufficient juice stock
(`utils.py` 437). -/
def juiceShortMsg (h n : Nat) : String :=
  "Not enough juice stock: have " ++ toString h ++ ", need " ++ toString n

/-- The `issues` list built in the complete-failure branch of
`generate_smart_bundle` (`utils.py` 427-440): per category, empty pool
takes precedence over insufficient stock (if/elif), and an empty list is
replaced by a generic message. -/
def diagnose (snack_limit juice_limit : Nat) (snacks juices : List Item) :
    List String :=
  let snackIssues : List String :=
    if 0 < snack_limit ∧ snacks = [] then [noSnacksMsg snack_limit]
    else if totalStock snacks < snack_limit then
      [snackShortMsg (totalStock snacks) snack_limit]
    else []
  let juiceIssues : List String :=
    if 0 < juice_limit ∧ juices = [] then [noJuicesMsg juice_limit]
    else if totalStock juices < juice_limit then
      [juiceShortMsg (totalStock juices) juice_limit]
    else []
  let issues := snackIssues ++ juiceIssues
  if issues = [] then
    ["Bundle constraints could not be satisfied with current inventory"]
  else issues

/-- The orchestrator's result message.  The Python code renders these as
f-strings; each constructor carries the values interpolated by the
corresponding branch of `utils.py` 472-479 (percentages) or the joined
`issues` list of the failure branch (`utils.py` 442). -/
inductive BundleMessage
  | optimized (profit_margin : ℚ)
  | marginWarning (target_margin_pct : ℚ) (profit_margin : ℚ)
  | created (profit_margin : ℚ)
  | failure (issues : List String)
deriving DecidableEq

/-- Return value of `generate_smart_bundle` (`utils.py` 332-342). -/
structure BundleResult where
  selected_snacks : List Entry
  selected_juices : List Entry
  total_cost : ℚ
  estimated_profit : ℚ
  profit_margin : ℚ
  success : Bool
  margin_met : Bool
  message : BundleMessage
  snack_count : Nat
  juice_count : Nat
  max_allowable_cost : ℚ
deriving DecidableEq

/-- STEP 5 of `generate_smart_bundle` (`utils.py` 458-493): final metrics
from a solver solution.  `profit_margin` is a percentage; `success` checks
it against the target margin percentage. -/
def finishResult (cfg : BundleConfig) (margin_decimal : ℚ)
    (margin_met : Bool) (s : SolveResult) (max_allowable_cost : ℚ) :
    BundleResult :=
  let total_cost := s.total_cost + cfg.packaging_cost
  let estimated_profit := cfg.selling_price - total_cost
  let profit_margin :=
    if 0 < cfg.selling_price then estimated_profit / cfg.selling_price * 100
    else 0
  let success := decide (margin_decimal * 100 ≤ profit_margin)
  let message :=
    if success = true ∧ margin_met = true then
      BundleMessage.optimized profit_margin
    else if margin_met = false then
      BundleMessage.marginWarning (margin_decimal * 100) profit_margin
    else BundleMessage.created profit_margin
  { selected_snacks := s.snacks
    selected_juices := s.juices
    total_cost := total_cost
    estimated_profit := estimated_profit
    profit_margin := profit_margin
    success := success
    margin_met := margin_met
    message := message
    snack_count := entriesQty s.snacks
    juice_count := entriesQty s.juices
    max_allowable_cost := max_allowable_cost + cfg.packaging_cost }

/-- The complete-failure result of `generate_smart_bundle`
(`utils.py` 444-456). -/
def failureResult (cfg : BundleConfig) (snacks juices : List Item)
    (max_allowable_cost : ℚ) : BundleResult :=
  { selected_snacks := []
    selected_juices := []
    total_cost := 0
    estimated_profit := 0
    profit_margin := 0
    success := false
    margin_met := false
    message := BundleMessage.failure
      (diagnose cfg.snack_limit cfg.juice_limit snacks juices)
    snack_count := 0
    juice_count := 0
    max_allowable_cost := max_allowable_cost + cfg.packaging_cost }

/-- `generate_smart_bundle` (`utils.py` 306-493).  The inventory query of
STEP 1 is modelled by taking the prepared candidate pools as arguments;
`allowed_mode` is `allowed_item_ids is not None` (it only feeds
`force_non_random`).  The margin-enforced pass and the margin-free
fallback pass receive their CBC points as `q1` and `q2`. -/
def generate_smart_bundle (cfg : BundleConfig)
    (customer_favorites : List Item)
    (available_snacks available_juices : List Item)
    (target_margin : Option ℚ) (allowed_mode ignore_stock : Bool)
    (q1 q2 : Nat → Nat) : BundleResult :=
  let margin_decimal := marginToUse target_margin
  let max_allowable_cost :=
    cfg.selling_price * (1 - margin_decimal) - cfg.packaging_cost
  match solve_smart_bundle cfg customer_favorites available_snacks
      available_juices true (some margin_decimal) allowed_mode ignore_stock
      q1 with
  | some s => finishResult cfg margin_decimal true s max_allowable_cost
  | none =>
    match solve_smart_bundle cfg customer_favorites available_snacks
        available_juices false (some margin_decimal) allowed_mode
        ignore_stock q2 with
    | some s => finishResult cfg margin_decimal false s max_allowable_cost
    | none => failureResult cfg available_snacks available_juices
        max_allowable_cost

/-- Python `int()` on a rational: truncation toward zero. -/
def pyInt (x : ℚ) : ℤ :=
  if 0 ≤ x then ⌊x⌋ else ⌈x⌉

/-- Suggested selling price for a custom bundle, as computed at both call
sites: `(int(total_cost / margin_factor / 100) + 1) * 100` in
`views.py` 434 and `int(total_cost / margin_factor / 100) * 100 + 100` in
`admin_views.py` 1800 (the two expressions are identical). -/
def suggestedPrice (total_cost margin_factor : ℚ) : ℤ :=
  (pyInt (total_cost / margin_factor / 100) + 1) * 100

/-- Modelled from the spec: `priceForTargetMargin(totalCost, targetMargin)`
as the spec's words describe it — `totalCost / (1 − targetMargin)` rounded
up (ceiling) to a whole multiple of 100.  Kept separate from
`suggestedPrice`, which is translated from the source, so the two can be
compared. -/
def priceForTargetMargin_spec (total_cost target_margin : ℚ) : ℤ :=
  ⌈total_cost / (1 - target_margin) / 100⌉ * 100

/-- Achieved profit margin as a fraction:
`(selling_price − total_cost) / selling_price` when the price is positive,
else 0 (the degenerate-input convention used throughout the source, e.g.
`utils.py` 463). -/
def achievedMargin (selling_price total_cost : ℚ) : ℚ :=
  if 0 < selling_price then (selling_price - total_cost) / selling_price
  else 0

/-- The admin margin-input clamp of `admin_views.py` 1718-1719:
`if margin_input < 38: margin_input = Decimal('38')` (percent scale). -/
def adminMarginClamp (margin_input : ℚ) : ℚ :=
  if margin_input < 38 then 38 else margin_input

/-- Order lifecycle statuses (`CustomerOrder.status`). -/
inductive OrderStatus
  | pending_approval
  | approved
  | payment_uploaded
  | payment_verified
  | processing
  | completed
  | cancelled
deriving DecidableEq

/-- The statuses in which stock has already been committed — the list
checked at `admin_views.py` 1507 and 1570. -/
def stockCommitted (s : OrderStatus) : Bool :=
  match s with
  | .payment_verified => true
  | .processing => true
  | .completed => true
  | _ => false

/-- One order line: item id and committed quantity. -/
structure OrderLine where
  itemId : Nat
  quantity : Nat
deriving DecidableEq

/-- State threaded through the stock-commit loop: live stock (integer, so
that non-negativity is a real property), the `inventory_reduced` log and
the warning log (item, required quantity, available stock). -/
structure CommitState where
  stocks : Nat → ℤ
  reduced : List (Nat × Nat)
  warnings : List (Nat × Nat × ℤ)

/-- One iteration of the inventory-reduction loop
(`admin_views.py` 1511-1526): decrement when stock suffices, otherwise
record a warning naming the item, the required quantity and the available
stock — without decrementing and without rolling anything back. -/
def commitLine (st : CommitState) (l : OrderLine) : CommitState :=
  if (l.quantity : ℤ) ≤ st.stocks l.itemId then
    { st with
      stocks := fun j =>
        if j = l.itemId then st.stocks j - (l.quantity : ℤ) else st.stocks j
      reduced := st.reduced ++ [(l.itemId, l.quantity)] }
  else
    { st with
      warnings := st.warnings ++ [(l.itemId, l.quantity, st.stocks l.itemId)] }

/-- The full inventory-reduction loop over an order's items. -/
def commitItems (lines : List OrderLine) (stocks : Nat → ℤ) : CommitState :=
  lines.foldl commitLine { stocks := stocks, reduced := [], warnings := [] }

/-- An order as the lifecycle step sees it: status plus committed lines. -/
structure OrderState where
  status : OrderStatus
  lines : List OrderLine

/-- The `verify_payment` action (`admin_views.py` 1498-1539): set the
status to `payment_verified`, and reduce inventory only when the previous
status had not already committed stock. -/
def verify_payment (os : OrderState) (stocks : Nat → ℤ) :
    OrderState × CommitState :=
  let previous_status := os.status
  let os2 : OrderState := { os with status := .payment_verified }
  if stockCommitted previous_status then
    (os2, { stocks := stocks, reduced := [], warnings := [] })
  else
    (os2, commitItems os.lines stocks)

/-! Helper lemmas shared by the claim theorems. -/

theorem entriesCost_extract (f : List Nat) (l : List Item) (q : Nat → Nat) :
    entriesCost (extractEntries f l q) = costSum l q := by
  induction l with
  | nil => rfl
  | cons a t ih =>
    by_cases h : 0 < q a.id
    · simp [extractEntries, entriesCost, costSum, h, List.filterMap_cons] at ih ⊢
      exact ih
    · have hz : q a.id = 0 := Nat.eq_zero_of_not_pos h
      simp [extractEntries, entriesCost, costSum, h, hz, List.filterMap_cons] at ih ⊢
      exact ih

theorem entriesQty_extract (f : List Nat) (l : List Item) (q : Nat → Nat) :
    entriesQty (extractEntries f l q) = qtySum l q := by
  induction l with
  | nil => rfl
  | cons a t ih =>
    by_cases h : 0 < q a.id
    · simp [extractEntries, entriesQty, qtySum, h, List.filterMap_cons] at ih ⊢
      omega
    · have hz : q a.id = 0 := Nat.eq_zero_of_not_pos h
      simp [extractEntries, entriesQty, qtySum, h, hz, List.filterMap_cons] at ih ⊢
      exact ih

theorem mem_extractEntries {f : List Nat} {l : List Item} {q : Nat → Nat}
    {e : Entry} (h : e ∈ extractEntries f l q) :
    ∃ i ∈ l, 0 < q i.id ∧ e = (i, q i.id, decide (i.id ∈ f)) := by
  unfold extractEntries at h
  rcases List.mem_filterMap.mp h with ⟨i, hi, hfe⟩
  by_cases hq : 0 < q i.id
  · refine ⟨i, hi, hq, ?_⟩
    simp [hq] at hfe
    exact hfe.symm
  · simp [hq] at hfe

theorem extract_mem_of_pos {f : List Nat} {l : List Item} {q : Nat → Nat}
    {i : Item} (hi : i ∈ l) (hq : 0 < q i.id) :
    (i, q i.id, decide (i.id ∈ f)) ∈ extractEntries f l q := by
  unfold extractEntries
  exact List.mem_filterMap.mpr ⟨i, hi, by simp [hq]⟩

theorem itemBounds_snd_le_stock (f : List Nat) (isR : Bool) (lim cap dyn : Nat)
    (i : Item) : (itemBounds f isR false lim cap dyn i).2 ≤ i.current_stock := by
  unfold itemBounds
  split_ifs <;> simp_all

theorem itemBounds_fav_fst (f : List Nat) (isR ist : Bool) (lim cap dyn : Nat)
    {i : Item} (h : i.id ∈ f) :
    (itemBounds f isR ist lim cap dyn i).1 = STARRED_MIN_QTY := by
  unfold itemBounds
  simp [h]

/-- Destructor for a successful solver call: the early exits did not fire,
the point is feasible, and the result is the extraction of the point. -/
theorem solve_some_elim {cfg : BundleConfig} {favs : List Item}
    {snacks juices : List Item} {em : Bool} {tm : Option ℚ} {fnr ist : Bool}
    {q : Nat → Nat} {r : SolveResult}
    (h : solve_smart_bundle cfg favs snacks juices em tm fnr ist q = some r) :
    Feasible cfg (favs.map (fun i => i.id)) snacks juices em (marginToUse tm)
      ((favs.map (fun i => i.id)).isEmpty && !fnr) ist q ∧
    r.snacks = extractEntries (favs.map (fun i => i.id)) snacks q ∧
    r.juices = extractEntries (favs.map (fun i => i.id)) juices q ∧
    r.total_cost = costSum snacks q + costSum juices q ∧
    (0 < cfg.snack_limit → snacks ≠ []) ∧
    (0 < cfg.juice_limit → juices ≠ []) := by
  simp only [solve_smart_bundle] at h
  split_ifs at h with h1 h2 h3 h4 h5
  · refine ⟨h5, ?_⟩
    have hr := (Option.some_inj.mp h).symm
    subst hr
    refine ⟨rfl, rfl, ?_, ?_, ?_⟩
    · simp [entriesCost_extract]
    · intro hs hemp
      exact h1 ⟨hs, hemp⟩
    · intro hj hemp
      exact h2 ⟨hj, hemp⟩

/-- In `finishResult`, `success` is exactly the comparison of the achieved
margin fraction with the target fraction. -/
theorem finishResult_success_iff (cfg : BundleConfig) (md : ℚ) (mm : Bool)
    (s : SolveResult) (mac : ℚ) :
    (finishResult cfg md mm s mac).success = true ↔
      md ≤ achievedMargin cfg.selling_price
        (finishResult cfg md mm s mac).total_cost := by
  unfold finishResult achievedMargin
  by_cases hp : 0 < cfg.selling_price
  · simp only [hp, if_true, decide_eq_true_eq]
    constructor
    · intro h
      have := (mul_le_mul_right (by norm_num : (0:ℚ) < 100)).mp h
      linarith
    · intro h
      have := (mul_le_mul_right (by norm_num : (0:ℚ) < 100)).mpr h
      linarith
  · simp only [hp, if_false, decide_eq_true_eq]
    constructor
    · intro h
      linarith
    · intro h
      linarith

/-- Invariant of the inventory-reduction fold: stock stays non-negative
and every warning records a genuine shortage (available < required). -/
theorem commit_fold_inv (lines : List OrderLine) (st : CommitState)
    (h1 : ∀ i, 0 ≤ st.stocks i)
    (h2 : ∀ w ∈ st.warnings, w.2.2 < (w.2.1 : ℤ)) :
    (∀ i, 0 ≤ (lines.foldl commitLine st).stocks i) ∧
    (∀ w ∈ (lines.foldl commitLine st).warnings, w.2.2 < (w.2.1 : ℤ)) := by
  induction lines generalizing st with
  | nil => exact ⟨h1, h2⟩
  | cons a t ih =>
    simp only [List.foldl_cons]
    apply ih
    · intro i
      unfold commitLine
      split_ifs with hc
      · by_cases hi : i = a.itemId
        · simp only [hi, if_pos rfl]
          omega
        · simp only [hi, if_neg hi]
          exact h1 i
      · exact h1 i
    · intro w hw
      unfold commitLine at hw
      split_ifs at hw with hc
      · exact h2 w hw
      · simp only [List.mem_append, List.mem_singleton] at hw
        rcases hw with hw | hw
        · exact h2 w hw
        · subst hw
          simpa using lt_of_not_le hc

/-- C2 (amended part): whenever the solver returns a solution, each
category with a positive requested count is fulfilled exactly: the sum of
returned quantities in that category equals the requested count. -/
theorem c2_exact_counts (cfg : BundleConfig) (favs snacks juices : List Item)
    (em : Bool) (tm : Option ℚ) (fnr ist : Bool) (q : Nat → Nat)
    (r : SolveResult)
    (h : solve_smart_bundle cfg favs snacks juices em tm fnr ist q = some r) :
    (0 < cfg.snack_limit → entriesQty r.snacks = cfg.snack_limit) ∧
    (0 < cfg.juice_limit → entriesQty r.juices = cfg.juice_limit) := by
  obtain ⟨hfeas, hs, hj, -, hsne, hjne⟩ := solve_some_elim h
  obtain ⟨-, -, hcs, hcj, -, -, -, -, -⟩ := hfeas
  constructor
  · intro hpos
    rw [hs, entriesQty_extract]
    exact hcs ⟨hpos, hsne hpos⟩
  · intro hpos
    rw [hj, entriesQty_extract]
    exact hcj ⟨hpos, hjne hpos⟩

/-- Witness for `c2_exact_counts`: a concrete two-category request (2
snacks, 1 juice) whose solution fulfills both counts exactly. -/
theorem c2_exact_counts_witness :
    (0:Nat) < 2 ∧ (0:Nat) < 1 ∧
    entriesQty [((⟨1, 30, 50⟩ : Item), 2, false)] = 2 ∧
    entriesQty [((⟨2, 50, 10⟩ : Item), 1, false)] = 1 := by
  have h : solve_smart_bundle ⟨1000, 2, 1, 0⟩ [] [⟨1, 30, 50⟩] [⟨2, 50, 10⟩]
      true (some (38/100)) false false
      (fun n => if n = 1 then 2 else 1) =
      some ⟨[((⟨1, 30, 50⟩ : Item), 2, false)],
        [((⟨2, 50, 10⟩ : Item), 1, false)], 110⟩ := by
    norm_num [solve_smart_bundle, Feasible, itemBounds, dynamicMax,
      marginToUse, MIN_PROFIT_MARGIN, totalStock, qtySum, costSum,
      extractEntries, entriesCost, STARRED_MIN_QTY, STARRED_MAX_QTY,
      List.filterMap]
  have h2 := c2_exact_counts ⟨1000, 2, 1, 0⟩ [] [⟨1, 30, 50⟩] [⟨2, 50, 10⟩]
    true (some (38/100)) false false (fun n => if n = 1 then 2 else 1) _ h
  exact ⟨by norm_num, by norm_num, h2.1 (by norm_num), h2.2 (by norm_num)⟩

/-- C2 (counterexample): the claim also asserts exact fulfillment "when a
requested count is zero".  With a requested juice count of 0 but a
favorited juice in the candidate pool, the favorite's lower bound of 1
forces the juice quantity sum to 1 ≠ 0 in every feasible point, and the
allocator still reports a non-failure (margin-met) result. -/
theorem c2_counterexample :
    (generate_smart_bundle ⟨1000, 4, 0, 0⟩ [⟨2, 50, 10⟩] [⟨1, 30, 50⟩]
      [⟨2, 50, 10⟩] none false false
      (fun n => if n = 1 then 4 else 1) (fun _ => 0)).margin_met = true ∧
    (generate_smart_bundle ⟨1000, 4, 0, 0⟩ [⟨2, 50, 10⟩] [⟨1, 30, 50⟩]
      [⟨2, 50, 10⟩] none false false
      (fun n => if n = 1 then 4 else 1) (fun _ => 0)).juice_count = 1 ∧
    (⟨1000, 4, 0, 0⟩ : BundleConfig).juice_limit = 0 := by
  refine ⟨?_, ?_, rfl⟩ <;>
  norm_num [generate_smart_bundle, solve_smart_bundle, Feasible, itemBounds,
    dynamicMax, marginToUse, MIN_PROFIT_MARGIN, totalStock, qtySum, costSum,
    extractEntries, entriesCost, entriesQty, finishResult, STARRED_MIN_QTY,
    STARRED_MAX_QTY, List.filterMap]

/-- C3: with ignore-stock mode off, every returned quantity is bounded by
the item's available stock at allocation time. -/
theorem c3_stock_bound (cfg : BundleConfig) (favs snacks juices : List Item)
    (em : Bool) (tm : Option ℚ) (fnr : Bool) (q : Nat → Nat)
    (r : SolveResult)
    (h : solve_smart_bundle cfg favs snacks juices em tm fnr false q = some r) :
    (∀ e ∈ r.snacks, e.2.1 ≤ e.1.current_stock) ∧
    (∀ e ∈ r.juices, e.2.1 ≤ e.1.current_stock) := by
  obtain ⟨hfeas, hs, hj, -, -, -⟩ := solve_some_elim h
  obtain ⟨hbs, hbj, -, -, -, -, -, -, -⟩ := hfeas
  constructor
  · intro e he
    rw [hs] at he
    obtain ⟨i, hi, hq, he⟩ := mem_extractEntries he
    subst he
    exact le_trans (hbs i hi).2 (itemBounds_snd_le_stock _ _ _ _ _ i)
  · intro e he
    rw [hj] at he
    obtain ⟨i, hi, hq, he⟩ := mem_extractEntries he
    subst he
    exact le_trans (hbj i hi).2 (itemBounds_snd_le_stock _ _ _ _ _ i)

/-- Witness for `c3_stock_bound`: the concrete solution of the
two-category request respects both stock bounds. -/
theorem c3_stock_bound_witness :
    (((⟨1, 30, 50⟩ : Item), 2, false) : Entry).2.1 ≤
      (⟨1, 30, 50⟩ : Item).current_stock ∧
    (((⟨2, 50, 10⟩ : Item), 1, false) : Entry).2.1 ≤
      (⟨2, 50, 10⟩ : Item).current_stock := by
  have h : solve_smart_bundle ⟨1000, 2, 1, 0⟩ [] [⟨1, 30, 50⟩] [⟨2, 50, 10⟩]
      true (some (38/100)) false false
      (fun n => if n = 1 then 2 else 1) =
      some ⟨[((⟨1, 30, 50⟩ : Item), 2, false)],
        [((⟨2, 50, 10⟩ : Item), 1, false)], 110⟩ := by
    norm_num [solve_smart_bundle, Feasible, itemBounds, dynamicMax,
      marginToUse, MIN_PROFIT_MARGIN, totalStock, qtySum, costSum,
      extractEntries, entriesCost, STARRED_MIN_QTY, STARRED_MAX_QTY,
      List.filterMap]
  have h3 := c3_stock_bound ⟨1000, 2, 1, 0⟩ [] [⟨1, 30, 50⟩] [⟨2, 50, 10⟩]
    true (some (38/100)) false (fun n => if n = 1 then 2 else 1) _ h
  exact ⟨h3.1 _ (by simp), h3.2 _ (by simp)⟩

/-- C4: every favorited item present in the candidate pool with stock ≥ 1
receives quantity ≥ 1 in any successful solver result (it appears in the
returned entry list with its assigned positive quantity and favorite
flag). -/
theorem c4_favorite_inclusion (cfg : BundleConfig)
    (favs snacks juices : List Item) (em : Bool) (tm : Option ℚ)
    (fnr ist : Bool) (q : Nat → Nat) (r : SolveResult)
    (h : solve_smart_bundle cfg favs snacks juices em tm fnr ist q = some r)
    (i : Item) (hfav : i.id ∈ favs.map (fun j => j.id))
    (hstock : 1 ≤ i.current_stock) :
    (i ∈ snacks → 1 ≤ q i.id ∧ (i, q i.id, true) ∈ r.snacks) ∧
    (i ∈ juices → 1 ≤ q i.id ∧ (i, q i.id, true) ∈ r.juices) := by
  obtain ⟨hfeas, hs, hj, -, -, -⟩ := solve_some_elim h
  obtain ⟨hbs, hbj, -, -, -, -, -, -, -⟩ := hfeas
  constructor
  · intro hi
    have hlo := (hbs i hi).1
    rw [itemBounds_fav_fst _ _ _ _ _ _ hfav] at hlo
    refine ⟨hlo, ?_⟩
    rw [hs]
    have := extract_mem_of_pos (f := favs.map (fun j => j.id)) (q := q) hi
      (Nat.lt_of_lt_of_le Nat.zero_lt_one hlo)
    simpa [hfav] using this
  · intro hi
    have hlo := (hbj i hi).1
    rw [itemBounds_fav_fst _ _ _ _ _ _ hfav] at hlo
    refine ⟨hlo, ?_⟩
    rw [hj]
    have := extract_mem_of_pos (f := favs.map (fun j => j.id)) (q := q) hi
      (Nat.lt_of_lt_of_le Nat.zero_lt_one hlo)
    simpa [hfav] using this

/-- Witness for `c4_favorite_inclusion`: a favorited juice with stock 10
appears with quantity 1 in the concrete solution. -/
theorem c4_favorite_inclusion_witness :
    1 ≤ (fun n => if n = 1 then 4 else 1) (⟨2, 50, 10⟩ : Item).id ∧
    ((⟨2, 50, 10⟩ : Item), (fun n => if n = 1 then 4 else 1)
        (⟨2, 50, 10⟩ : Item).id, true) ∈
      [((⟨2, 50, 10⟩ : Item), 1, true)] := by
  have h : solve_smart_bundle ⟨1000, 4, 0, 0⟩ [⟨2, 50, 10⟩] [⟨1, 30, 50⟩]
      [⟨2, 50, 10⟩] true (some (38/100)) false false
      (fun n => if n = 1 then 4 else 1) =
      some ⟨[((⟨1, 30, 50⟩ : Item), 4, false)],
        [((⟨2, 50, 10⟩ : Item), 1, true)], 170⟩ := by
    norm_num [solve_smart_bundle, Feasible, itemBounds, dynamicMax,
      marginToUse, MIN_PROFIT_MARGIN, totalStock, qtySum, costSum,
      extractEntries, entriesCost, STARRED_MIN_QTY, STARRED_MAX_QTY,
      List.filterMap]
  have h4 := c4_favorite_inclusion ⟨1000, 4, 0, 0⟩ [⟨2, 50, 10⟩]
    [⟨1, 30, 50⟩] [⟨2, 50, 10⟩] true (some (38/100)) false false
    (fun n => if n = 1 then 4 else 1) _ h ⟨2, 50, 10⟩ (by simp) (by norm_num)
  exact h4.2 (by simp)

/-- C1 (amended part): when the orchestrator reports `margin_met = true`
and the selling price is positive, the allocated item cost (total cost
minus packaging) is at most `sellingPrice × (1 − targetMargin) −
packagingCost`. -/
theorem c1_margin_bound (cfg : BundleConfig) (favs snacks juices : List Item)
    (tm : Option ℚ) (amode istock : Bool) (q1 q2 : Nat → Nat)
    (hp : 0 < cfg.selling_price)
    (hm : (generate_smart_bundle cfg favs snacks juices tm amode istock
      q1 q2).margin_met = true) :
    (generate_smart_bundle cfg favs snacks juices tm amode istock
        q1 q2).total_cost - cfg.packaging_cost ≤
      cfg.selling_price * (1 - marginToUse tm) - cfg.packaging_cost := by
  cases h1 : solve_smart_bundle cfg favs snacks juices true
      (some (marginToUse tm)) amode istock q1 with
  | some s =>
    simp only [generate_smart_bundle, h1, finishResult]
    obtain ⟨hfeas, -, -, htc, -, -⟩ := solve_some_elim h1
    obtain ⟨-, -, -, -, -, -, hmargin, -, -⟩ := hfeas
    have hb := hmargin ⟨rfl, hp⟩
    rw [htc]
    simp only [marginToUse, Option.getD_some] at hb ⊢
    linarith
  | none =>
    exfalso
    cases h2 : solve_smart_bundle cfg favs snacks juices false
        (some (marginToUse tm)) amode istock q2 with
    | some s =>
      simp only [generate_smart_bundle, h1, h2, finishResult] at hm
      exact Bool.false_ne_true hm
    | none =>
      simp only [generate_smart_bundle, h1, h2, failureResult] at hm
      exact Bool.false_ne_true hm

/-- Witness for `c1_margin_bound`: a 1-snack bundle at price 1000 whose
margin-enforced solution costs 30 ≤ 1000 × 0.62. -/
theorem c1_margin_bound_witness :
    (0:ℚ) < 1000 ∧
    (generate_smart_bundle ⟨1000, 1, 0, 0⟩ [] [⟨1, 30, 50⟩] [] none false
        false (fun _ => 1) (fun _ => 1)).total_cost - (0:ℚ) ≤
      (1000:ℚ) * (1 - marginToUse none) - 0 := by
  refine ⟨by norm_num, ?_⟩
  have hm : (generate_smart_bundle ⟨1000, 1, 0, 0⟩ [] [⟨1, 30, 50⟩] []
      none false false (fun _ => 1) (fun _ => 1)).margin_met = true := by
    norm_num [generate_smart_bundle, solve_smart_bundle, Feasible,
      itemBounds, dynamicMax, marginToUse, MIN_PROFIT_MARGIN, totalStock,
      qtySum, costSum, extractEntries, entriesCost, entriesQty,
      finishResult, STARRED_MIN_QTY, STARRED_MAX_QTY, List.filterMap]
  exact c1_margin_bound ⟨1000, 1, 0, 0⟩ [] [⟨1, 30, 50⟩] [] none false
    false (fun _ => 1) (fun _ => 1) (by norm_num) hm

/-- C1 (counterexample): with selling price 0 the margin constraint is
skipped entirely (`enforce_margin and selling_price > 0` is false), so the
margin-enforced pass succeeds, `margin_met = true` is reported, and the
total allocated cost 30 exceeds the claimed bound
`0 × (1 − 0.38) − 0 = 0`. -/
theorem c1_counterexample :
    (generate_smart_bundle ⟨0, 1, 0, 0⟩ [] [⟨1, 30, 50⟩] [] none false
      false (fun _ => 1) (fun _ => 1)).margin_met = true ∧
    ¬((generate_smart_bundle ⟨0, 1, 0, 0⟩ [] [⟨1, 30, 50⟩] [] none false
        false (fun _ => 1) (fun _ => 1)).total_cost - (0:ℚ) ≤
      (0:ℚ) * (1 - marginToUse none) - 0) := by
  constructor <;>
  norm_num [generate_smart_bundle, solve_smart_bundle, Feasible, itemBounds,
    dynamicMax, marginToUse, MIN_PROFIT_MARGIN, totalStock, qtySum, costSum,
    extractEntries, entriesCost, entriesQty, finishResult, STARRED_MIN_QTY,
    STARRED_MAX_QTY, List.filterMap]

/-- C10: in every non-failure orchestrator result the success flag is true
iff the achieved margin fraction (0 when the selling price is 0, computed
over the packaging-inclusive total cost) reaches the target margin; in
particular, with selling price 0 and a positive target, a margin-met
solution still yields `success = false` while `margin_met = true`. -/
theorem c10_success_iff_margin (cfg : BundleConfig)
    (favs snacks juices : List Item) (tm : Option ℚ) (amode istock : Bool)
    (q1 q2 : Nat → Nat) :
    (∀ s, solve_smart_bundle cfg favs snacks juices true
        (some (marginToUse tm)) amode istock q1 = some s →
      ((generate_smart_bundle cfg favs snacks juices tm amode istock
          q1 q2).success = true ↔
        marginToUse tm ≤ achievedMargin cfg.selling_price
          (generate_smart_bundle cfg favs snacks juices tm amode istock
            q1 q2).total_cost)) ∧
    (solve_smart_bundle cfg favs snacks juices true (some (marginToUse tm))
        amode istock q1 = none →
      ∀ s, solve_smart_bundle cfg favs snacks juices false
        (some (marginToUse tm)) amode istock q2 = some s →
      ((generate_smart_bundle cfg favs snacks juices tm amode istock
          q1 q2).success = true ↔
        marginToUse tm ≤ achievedMargin cfg.selling_price
          (generate_smart_bundle cfg favs snacks juices tm amode istock
            q1 q2).total_cost)) ∧
    (cfg.selling_price = 0 → 0 < marginToUse tm →
      ∀ s, solve_smart_bundle cfg favs snacks juices true
        (some (marginToUse tm)) amode istock q1 = some s →
      (generate_smart_bundle cfg favs snacks juices tm amode istock
          q1 q2).success = false ∧
      (generate_smart_bundle cfg favs snacks juices tm amode istock
          q1 q2).margin_met = true) := by
  refine ⟨?_, ?_, ?_⟩
  · intro s h1
    simp only [generate_smart_bundle, h1]
    exact finishResult_success_iff cfg (marginToUse tm) true s _
  · intro h1 s h2
    simp only [generate_smart_bundle, h1, h2]
    exact finishResult_success_iff cfg (marginToUse tm) false s _
  · intro hz hmpos s h1
    simp only [generate_smart_bundle, h1, finishResult, hz]
    norm_num
    exact hmpos

/-- Witness for `c10_success_iff_margin`: selling price 0, target 0.38 —
the margin-enforced pass succeeds (`margin_met = true`) yet
`success = false`. -/
theorem c10_success_iff_margin_witness :
    (generate_smart_bundle ⟨0, 1, 0, 0⟩ [] [⟨1, 30, 50⟩] [] none false
      false (fun _ => 1) (fun _ => 1)).success = false ∧
    (generate_smart_bundle ⟨0, 1, 0, 0⟩ [] [⟨1, 30, 50⟩] [] none false
      false (fun _ => 1) (fun _ => 1)).margin_met = true := by
  have h1 : solve_smart_bundle ⟨0, 1, 0, 0⟩ [] [⟨1, 30, 50⟩] [] true
      (some (marginToUse none)) false false (fun _ => 1) =
      some ⟨[((⟨1, 30, 50⟩ : Item), 1, false)], [], 30⟩ := by
    norm_num [solve_smart_bundle, Feasible, itemBounds, dynamicMax,
      marginToUse, MIN_PROFIT_MARGIN, totalStock, qtySum, costSum,
      extractEntries, entriesCost, STARRED_MIN_QTY, STARRED_MAX_QTY,
      List.filterMap]
  exact (c10_success_iff_margin ⟨0, 1, 0, 0⟩ [] [⟨1, 30, 50⟩] [] none
    false false (fun _ => 1) (fun _ => 1)).2.2 rfl
    (by norm_num [marginToUse, MIN_PROFIT_MARGIN]) _ h1

/-- C5 (amended part): the source's suggested price
`(int(cost / (1 − m) / 100) + 1) × 100` always achieves a margin of at
least the target `m`. -/
theorem c5_price_margin_guarantee (c m : ℚ) (hc : 0 ≤ c) (hm0 : 0 ≤ m)
    (hm1 : m < 1) :
    m ≤ achievedMargin ((suggestedPrice c (1 - m) : ℤ) : ℚ) c := by
  have hf : (0:ℚ) < 1 - m := by linarith
  have hx0 : 0 ≤ c / (1 - m) / 100 := by positivity
  have hpy : pyInt (c / (1 - m) / 100) = ⌊c / (1 - m) / 100⌋ := if_pos hx0
  have hfl0 : (0:ℤ) ≤ ⌊c / (1 - m) / 100⌋ := Int.floor_nonneg.mpr hx0
  have hp : ((suggestedPrice c (1 - m) : ℤ) : ℚ)
      = ((⌊c / (1 - m) / 100⌋ : ℚ) + 1) * 100 := by
    unfold suggestedPrice
    rw [hpy]
    push_cast
    ring
  have hlt : c / (1 - m) / 100 < (⌊c / (1 - m) / 100⌋ : ℚ) + 1 :=
    Int.lt_floor_add_one _
  have hfl0Q : (0:ℚ) ≤ (⌊c / (1 - m) / 100⌋ : ℚ) := by exact_mod_cast hfl0
  have hppos : (0:ℚ) < ((⌊c / (1 - m) / 100⌋ : ℚ) + 1) * 100 := by nlinarith
  have hgt : c / (1 - m) < ((⌊c / (1 - m) / 100⌋ : ℚ) + 1) * 100 := by
    have h100 := mul_lt_mul_of_pos_right hlt
      (show (0:ℚ) < 100 by norm_num)
    have hdm : c / (1 - m) / 100 * 100 = c / (1 - m) :=
      div_mul_cancel₀ _ (by norm_num : (100:ℚ) ≠ 0)
    linarith
  have hcp : c < ((⌊c / (1 - m) / 100⌋ : ℚ) + 1) * 100 * (1 - m) :=
    (div_lt_iff₀ hf).mp hgt
  unfold achievedMargin
  rw [hp, if_pos hppos, le_div_iff₀ hppos]
  nlinarith

/-- Witness for `c5_price_margin_guarantee`: cost 62, target 38% — the
suggested price 200 achieves margin 0.69 ≥ 0.38. -/
theorem c5_price_margin_guarantee_witness :
    (0:ℚ) ≤ 62 ∧ (0:ℚ) ≤ 38/100 ∧ (38/100:ℚ) < 1 ∧
    (38/100 : ℚ) ≤
      achievedMargin ((suggestedPrice 62 (1 - 38/100) : ℤ) : ℚ) 62 :=
  ⟨by norm_num, by norm_num, by norm_num,
    c5_price_margin_guarantee 62 (38/100) (by norm_num) (by norm_num)
      (by norm_num)⟩

/-- C5 (counterexample): at cost 62 and target margin 0.38 the quotient
`62 / 0.62 = 100` is already a whole multiple of 100; rounding up
(ceiling) yields 100, but the source computes `floor + 1` hundreds and
yields 200, so the suggested price is not the ceiling the claim
describes. -/
theorem c5_counterexample :
    suggestedPrice 62 (1 - 38/100) = 200 ∧
    priceForTargetMargin_spec 62 (38/100) = 100 ∧
    (200 : ℤ) ≠ 100 := by
  refine ⟨?_, ?_, by norm_num⟩
  · norm_num [suggestedPrice, pyInt]
  · norm_num [priceForTargetMargin_spec]

/-- C6 (amended part): the 38-percent floor is applied only to the admin
rerun input (`adminMarginClamp`); the allocation engine itself uses the
caller-supplied margin unchanged, defaulting to 0.38 only when no margin
is supplied. -/
theorem c6_clamp_location :
    (∀ m : ℚ, 38 ≤ adminMarginClamp m) ∧
    marginToUse none = 38/100 ∧
    (∀ t : ℚ, marginToUse (some t) = t) := by
  refine ⟨?_, rfl, fun t => rfl⟩
  intro m
  unfold adminMarginClamp
  split_ifs with h
  · exact le_refl 38
  · exact not_lt.mp h

/-- C6 (counterexample): the engine invoked with target margin 0.2 < 0.38
applies 0.2, not 0.38: the margin-enforced pass accepts an allocation of
cost 75 at price 100 (ceiling 80 under margin 0.2) even though the 0.38
ceiling is 62, and reports `margin_met = true`. -/
theorem c6_counterexample :
    marginToUse (some (1/5)) = 1/5 ∧
    ((1:ℚ)/5) < 38/100 ∧
    (generate_smart_bundle ⟨100, 1, 0, 0⟩ [] [⟨1, 75, 10⟩] [] (some (1/5))
      false false (fun _ => 1) (fun _ => 0)).margin_met = true ∧
    (100:ℚ) * (1 - 38/100) <
      (generate_smart_bundle ⟨100, 1, 0, 0⟩ [] [⟨1, 75, 10⟩] []
        (some (1/5)) false false (fun _ => 1) (fun _ => 0)).total_cost
        - 0 := by
  refine ⟨rfl, by norm_num, ?_, ?_⟩ <;>
  norm_num [generate_smart_bundle, solve_smart_bundle, Feasible, itemBounds,
    dynamicMax, marginToUse, MIN_PROFIT_MARGIN, totalStock, qtySum, costSum,
    extractEntries, entriesCost, entriesQty, finishResult, STARRED_MIN_QTY,
    STARRED_MAX_QTY, List.filterMap]

/-- C8 (amended part): the stock-commit loop never drives stock negative,
and every warning it emits identifies a genuine shortage: the short item,
the required quantity and the smaller available stock. -/
theorem c8_commit_safety (lines : List OrderLine) (stocks : Nat → ℤ)
    (h : ∀ i, 0 ≤ stocks i) :
    (∀ i, 0 ≤ (commitItems lines stocks).stocks i) ∧
    (∀ w ∈ (commitItems lines stocks).warnings, w.2.2 < (w.2.1 : ℤ)) := by
  unfold commitItems
  refine commit_fold_inv lines _ h ?_
  intro w hw
  simp at hw

/-- Witness for `c8_commit_safety`: committing lines (item 1 × 2,
item 2 × 3) against stocks (5, 1) keeps stock non-negative and the emitted
warning (item 2, required 3, available 1) records available < required. -/
theorem c8_commit_safety_witness :
    0 ≤ (commitItems [⟨1, 2⟩, ⟨2, 3⟩]
      (fun n => if n = 1 then 5 else 1)).stocks 2 ∧
    (((2:Nat), (3:Nat), (1:ℤ))).2.2 < ((((2:Nat), (3:Nat), (1:ℤ))).2.1 : ℤ) := by
  have h8 := c8_commit_safety [⟨1, 2⟩, ⟨2, 3⟩]
    (fun n => if n = 1 then 5 else 1)
    (by intro i; dsimp only; split_ifs <;> norm_num)
  exact ⟨h8.1 2, h8.2 (2, 3, 1) (by decide)⟩

/-- C8 (counterexample): in the same run a shortage warning is emitted for
item 2, yet item 1 — decremented earlier in the same batch — keeps its
decrement (5 → 3): partial commits are not rolled back, so stock is not
unchanged by the failed commit. -/
theorem c8_counterexample :
    (commitItems [⟨1, 2⟩, ⟨2, 3⟩]
      (fun n => if n = 1 then 5 else 1)).warnings = [(2, 3, 1)] ∧
    (commitItems [⟨1, 2⟩, ⟨2, 3⟩]
      (fun n => if n = 1 then 5 else 1)).stocks 1 = 3 ∧
    ((3:ℤ) ≠ 5) := by
  exact ⟨by decide, by decide, by decide⟩

/-- C9: the stock-commit step is idempotent — if the order is already in a
stock-committed status the commit leaves every stock unchanged, and
running verify-payment twice equals running it once. -/
theorem c9_idempotent_commit (os : OrderState) (stocks : Nat → ℤ) :
    (stockCommitted os.status = true →
      (verify_payment os stocks).2.stocks = stocks) ∧
    (verify_payment (verify_payment os stocks).1
        (verify_payment os stocks).2.stocks).2.stocks
      = (verify_payment os stocks).2.stocks := by
  constructor
  · intro h
    unfold verify_payment
    rw [if_pos h]
  · have hfst : (verify_payment os stocks).1
        = ⟨.payment_verified, os.lines⟩ := by
      simp only [verify_payment]
      split_ifs <;> rfl
    rw [hfst]
    rfl

/-- Witness for `c9_idempotent_commit`: a payment-verified order's commit
leaves stock untouched, and a double verify on a processing order equals
a single one. -/
theorem c9_idempotent_commit_witness :
    (verify_payment ⟨.payment_verified, [⟨1, 2⟩]⟩
      (fun _ => 5)).2.stocks = (fun _ => (5:ℤ)) ∧
    (verify_payment (verify_payment ⟨.processing, [⟨1, 2⟩]⟩ (fun _ => 5)).1
        (verify_payment ⟨.processing, [⟨1, 2⟩]⟩ (fun _ => 5)).2.stocks).2.stocks
      = (verify_payment ⟨.processing, [⟨1, 2⟩]⟩ (fun _ => 5)).2.stocks :=
  ⟨(c9_idempotent_commit ⟨.payment_verified, [⟨1, 2⟩]⟩ (fun _ => 5)).1 rfl,
    (c9_idempotent_commit ⟨.processing, [⟨1, 2⟩]⟩ (fun _ => 5)).2⟩

theorem diagnose_noSnacks {sl jl : Nat} {snacks juices : List Item}
    (h : 0 < sl ∧ snacks = []) :
    noSnacksMsg sl ∈ diagnose sl jl snacks juices := by
  unfold diagnose
  simp only [if_pos h]
  split_ifs <;> simp_all

theorem diagnose_snackShort {sl jl : Nat} {snacks juices : List Item}
    (hn : ¬(0 < sl ∧ snacks = [])) (hst : totalStock snacks < sl) :
    snackShortMsg (totalStock snacks) sl ∈ diagnose sl jl snacks juices := by
  unfold diagnose
  simp only [if_neg hn, if_pos hst]
  split_ifs <;> simp_all

theorem diagnose_noJuices {sl jl : Nat} {snacks juices : List Item}
    (h : 0 < jl ∧ juices = []) :
    noJuicesMsg jl ∈ diagnose sl jl snacks juices := by
  unfold diagnose
  simp only [if_pos h]
  split_ifs <;> simp_all

theorem diagnose_juiceShort {sl jl : Nat} {snacks juices : List Item}
    (hn : ¬(0 < jl ∧ juices = [])) (hst : totalStock juices < jl) :
    juiceShortMsg (totalStock juices) jl ∈ diagnose sl jl snacks juices := by
  unfold diagnose
  simp only [if_neg hn, if_pos hst]
  split_ifs <;> simp_all

/-- C7: if the margin-enforced pass is infeasible, the orchestrator
re-solves without the margin constraint; a successful fallback is returned
with `margin_met = false`, and a doubly failed solve yields a failure
result whose diagnostic names each short category with its shortfall
magnitude (available stock versus required count). -/
theorem c7_fallback_and_diagnosis (cfg : BundleConfig)
    (favs snacks juices : List Item) (tm : Option ℚ) (amode istock : Bool)
    (q1 q2 : Nat → Nat)
    (h1 : solve_smart_bundle cfg favs snacks juices true
      (some (marginToUse tm)) amode istock q1 = none) :
    (∀ s, solve_smart_bundle cfg favs snacks juices false
        (some (marginToUse tm)) amode istock q2 = some s →
      (generate_smart_bundle cfg favs snacks juices tm amode istock
          q1 q2).margin_met = false ∧
      (generate_smart_bundle cfg favs snacks juices tm amode istock
          q1 q2).selected_snacks = s.snacks ∧
      (generate_smart_bundle cfg favs snacks juices tm amode istock
          q1 q2).selected_juices = s.juices) ∧
    (solve_smart_bundle cfg favs snacks juices false (some (marginToUse tm))
        amode istock q2 = none →
      (generate_smart_bundle cfg favs snacks juices tm amode istock
          q1 q2).success = false ∧
      (generate_smart_bundle cfg favs snacks juices tm amode istock
          q1 q2).message = BundleMessage.failure
        (diagnose cfg.snack_limit cfg.juice_limit snacks juices) ∧
      (0 < cfg.snack_limit ∧ snacks = [] →
        noSnacksMsg cfg.snack_limit ∈
          diagnose cfg.snack_limit cfg.juice_limit snacks juices) ∧
      (¬(0 < cfg.snack_limit ∧ snacks = []) ∧
          totalStock snacks < cfg.snack_limit →
        snackShortMsg (totalStock snacks) cfg.snack_limit ∈
          diagnose cfg.snack_limit cfg.juice_limit snacks juices) ∧
      (0 < cfg.juice_limit ∧ juices = [] →
        noJuicesMsg cfg.juice_limit ∈
          diagnose cfg.snack_limit cfg.juice_limit snacks juices) ∧
      (¬(0 < cfg.juice_limit ∧ juices = []) ∧
          totalStock juices < cfg.juice_limit →
        juiceShortMsg (totalStock juices) cfg.juice_limit ∈
          diagnose cfg.snack_limit cfg.juice_limit snacks juices)) := by
  constructor
  · intro s h2
    simp only [generate_smart_bundle, h1, h2, finishResult]
    exact ⟨trivial, trivial, trivial⟩
  · intro h2
    simp only [generate_smart_bundle, h1, h2, failureResult]
    exact ⟨trivial, trivial, fun h => diagnose_noSnacks h,
      fun h => diagnose_snackShort h.1 h.2,
      fun h => diagnose_noJuices h,
      fun h => diagnose_juiceShort h.1 h.2⟩

/-- Witness for `c7_fallback_and_diagnosis`: requesting 5 snacks against
an empty snack pool fails both passes, yields `success = false` and a
diagnostic naming the snack shortage. -/
theorem c7_fallback_and_diagnosis_witness :
    (generate_smart_bundle ⟨1000, 5, 0, 0⟩ [] [] [] none false false
      (fun _ => 0) (fun _ => 0)).success = false ∧
    (generate_smart_bundle ⟨1000, 5, 0, 0⟩ [] [] [] none false false
      (fun _ => 0) (fun _ => 0)).message
      = BundleMessage.failure (diagnose 5 0 [] []) ∧
    noSnacksMsg 5 ∈ diagnose 5 0 [] [] := by
  have h7 := (c7_fallback_and_diagnosis ⟨1000, 5, 0, 0⟩ [] [] [] none
    false false (fun _ => 0) (fun _ => 0) rfl).2 rfl
  exact ⟨h7.1, h7.2.1, h7.2.2.1 (by norm_num)⟩

end Jem
